import Mathlib

/-!
Shallow embedding of `src/main.py` (gold-forecast-bot), centred on the
multi-source price acquisition routine `get_gold_price` (lines 78-120),
the caller guard in `create_signal_and_maybe_alert` (lines 328-331),
the module start-up statement at line 62, and the indicator scorer
`compute_indicator_confluence` (lines 206-241).

Network, HTTP and JSON parsing are abstracted at the adapter boundary:
each configured source is represented by the observable outcome of its
try-block body (an exception somewhere inside the block, a successful
response whose expected field is absent so the block falls through, or a
successfully parsed price).  Prices are modelled as rationals; Python
float rounding and non-finite values are outside the model except where
a claim only needs a sign argument.
-/

/-- Abstract Python exception raised inside a try block (network error,
timeout, JSON decode error, missing key, failed float conversion, or an
unbound name). -/
inductive PyErr
  | networkError
  | timeout
  | jsonError
  | keyError
  | valueError
  | nameError
  deriving DecidableEq, Repr

/-- Observable outcome of one non-primary source block in
`get_gold_price`.  `raised e` : some statement inside the try block
raised `e` (caught by the bare `except Exception`, which prints and
falls through).  `skipped` : the request and JSON decode succeeded but
the guarding `if`/`for` found no usable field, so the block falls
through without raising.  `value v` : a price was parsed by `float(...)`
and the function returns it. -/
inductive FetchOutcome
  | raised (e : PyErr)
  | skipped
  | value (v : ℚ)
  deriving DecidableEq, Repr

/-- The frozen responses of the four configured price sources for one
pass, in the order of `PRICE_SOURCES` (lines 46-51).  The Yahoo block
(lines 81-88) has no fall-through path: it either returns
`float(j["chart"]["result"][0]["meta"]["regularMarketPrice"])` or raises,
so it is an `Except` rather than a `FetchOutcome`. -/
structure SourceResponses where
  yahoo : Except PyErr ℚ
  metalsLive : FetchOutcome
  goldpriceOrg : FetchOutcome
  goldapi : FetchOutcome

/-- Identifier of a configured price source, in `PRICE_SOURCES` order. -/
inductive SourceId
  | yahoo
  | metalsLive
  | goldpriceOrg
  | goldapi
  deriving DecidableEq, Repr

/-- Position of a source in the `PRICE_SOURCES` order (lines 46-51). -/
def source_index : SourceId → ℕ
  | .yahoo => 0
  | .metalsLive => 1
  | .goldpriceOrg => 2
  | .goldapi => 3

/-- `get_gold_price` (lines 78-120): try Yahoo, on any exception fall
through to metals.live, then goldprice.org, then goldapi; each block
returns the first price it parses; if no block returns, the function
returns `None`.  Every try body is wrapped in `except Exception`, so a
raise inside a block behaves like a fall-through. -/
def get_gold_price (env : SourceResponses) : Option ℚ :=
  match env.yahoo with
  | .ok price => some price
  | .error _ =>
    match env.metalsLive with
    | .value v => some v
    | _ =>
      match env.goldpriceOrg with
      | .value v => some v
      | _ =>
        match env.goldapi with
        | .value v => some v
        | _ => none

/-- `get_gold_price` instrumented with which return statement executed:
the same control flow as `get_gold_price`, also reporting the source
whose block produced the returned price. -/
def get_gold_price_traced (env : SourceResponses) : Option (SourceId × ℚ) :=
  match env.yahoo with
  | .ok price => some (.yahoo, price)
  | .error _ =>
    match env.metalsLive with
    | .value v => some (.metalsLive, v)
    | _ =>
      match env.goldpriceOrg with
      | .value v => some (.goldpriceOrg, v)
      | _ =>
        match env.goldapi with
        | .value v => some (.goldapi, v)
        | _ => none

/-- The sources whose HTTP request is issued during one call of
`get_gold_price`: each try block begins with `requests.get(...)`, so a
source is contacted exactly when control reaches its block, i.e. when
every earlier block failed to execute a `return`. -/
def get_gold_price_calls (env : SourceResponses) : List SourceId :=
  match env.yahoo with
  | .ok _ => [.yahoo]
  | .error _ =>
    match env.metalsLive with
    | .value _ => [.yahoo, .metalsLive]
    | _ =>
      match env.goldpriceOrg with
      | .value _ => [.yahoo, .metalsLive, .goldpriceOrg]
      | _ => [.yahoo, .metalsLive, .goldpriceOrg, .goldapi]

/-- Body of the Yahoo try block (lines 81-87) with exceptions explicit:
`.error e` models a raise inside the block, `.ok (some v)` the
`return float(price)` statement. -/
def yahoo_block (env : SourceResponses) : Except PyErr (Option ℚ) :=
  match env.yahoo with
  | .ok price => .ok (some price)
  | .error e => .error e

/-- Body of one non-primary try block with exceptions explicit:
`.ok none` is the fall-through path (guard found no usable field). -/
def outcome_block : FetchOutcome → Except PyErr (Option ℚ)
  | .raised e => .error e
  | .skipped => .ok none
  | .value v => .ok (some v)

/-- A bare `try: ... except Exception as e: print(...)` wrapper (lines
81-88, 91-99, 102-108, 111-118): any exception raised by the body is
caught and the block falls through; it never re-raises. -/
def try_except (body : Except PyErr (Option ℚ)) : Except PyErr (Option ℚ) :=
  match body with
  | .error _ => .ok none
  | .ok r => .ok r

/-- `get_gold_price` with the exception channel kept explicit: an
`.error` result would model an exception escaping the function to its
caller.  Mirrors the source block structure with each block wrapped in
`try_except`. -/
def get_gold_price_exc (env : SourceResponses) : Except PyErr (Option ℚ) :=
  (try_except (yahoo_block env)).bind fun r1 =>
    match r1 with
    | some v => .ok (some v)
    | none =>
      (try_except (outcome_block env.metalsLive)).bind fun r2 =>
        match r2 with
        | some v => .ok (some v)
        | none =>
          (try_except (outcome_block env.goldpriceOrg)).bind fun r3 =>
            match r3 with
            | some v => .ok (some v)
            | none =>
              (try_except (outcome_block env.goldapi)).bind fun r4 =>
                match r4 with
                | some v => .ok (some v)
                | none => .ok none

/-- How `create_signal_and_maybe_alert` begins (lines 328-331):
`price = get_gold_price()`; if it is `None` the function prints
"No price available right now." and returns at once — no signal is
recorded and no alert is sent; otherwise it proceeds with the price. -/
inductive CycleStep
  | skippedNoPrice
  | proceeded (price : ℚ)
  deriving DecidableEq, Repr

/-- Dispatch of `create_signal_and_maybe_alert` on the fetched price
(lines 328-331). -/
def create_signal_dispatch (env : SourceResponses) : CycleStep :=
  match get_gold_price env with
  | none => .skippedNoPrice
  | some p => .proceeded p

/-- Whether a non-primary block fails to execute a `return` (raises or
falls through). -/
def fails_to_return : FetchOutcome → Bool
  | .value _ => false
  | _ => true

/-- Every configured source fails to produce a price this pass. -/
def all_sources_fail (env : SourceResponses) : Bool :=
  (match env.yahoo with | .ok _ => false | .error _ => true)
    && fails_to_return env.metalsLive
    && fails_to_return env.goldpriceOrg
    && fails_to_return env.goldapi

/-- The valid quotes gathered this pass in source order: parsed values
that satisfy the PriceQuote invariant (positive); used to compare the
code against the selection policy of the specification. -/
def outcome_valid_value : FetchOutcome → Option ℚ
  | .value v => if 0 < v then some v else none
  | _ => none

/-- List of valid quote values across the four sources, in order. -/
def valid_quotes (env : SourceResponses) : List ℚ :=
  (match env.yahoo with
   | .ok v => if 0 < v then [v] else []
   | .error _ => []) ++
  (outcome_valid_value env.metalsLive).toList ++
  (outcome_valid_value env.goldpriceOrg).toList ++
  (outcome_valid_value env.goldapi).toList

/-- Insert into a sorted list (ascending). -/
def insert_sorted (x : ℚ) : List ℚ → List ℚ
  | [] => [x]
  | y :: ys => if x ≤ y then x :: y :: ys else y :: insert_sorted x ys

/-- Insertion sort, ascending. -/
def sort_asc (xs : List ℚ) : List ℚ := xs.foldr insert_sorted []

/-- Modelled from the spec: the selection policy when no valid primary
quote exists — the median of the valid quote values, taking the lower of
the two middle order statistics when the count is even (the tie-break
rule of §4.2).  `get_gold_price` has no such computation; this
definition exists only to compare the code against the specification. -/
def spec_median_low (xs : List ℚ) : Option ℚ :=
  (sort_asc xs)[(xs.length - 1) / 2]?

/-- First parsed price among a list of block outcomes, in order. -/
def first_value : List FetchOutcome → Option ℚ
  | [] => none
  | o :: rest =>
    match o with
    | .value v => some v
    | _ => first_value rest

/-- Two response sets agree up to source `s`: they coincide on every
source whose position in `PRICE_SOURCES` is at most that of `s` (later
sources may differ arbitrarily). -/
def agree_upto (s : SourceId) (e1 e2 : SourceResponses) : Prop :=
  e1.yahoo = e2.yahoo ∧
  (1 ≤ source_index s → e1.metalsLive = e2.metalsLive) ∧
  (2 ≤ source_index s → e1.goldpriceOrg = e2.goldpriceOrg) ∧
  (3 ≤ source_index s → e1.goldapi = e2.goldapi)

/-- The world visible to one polling cycle: the frozen source responses
plus the wall clock (`datetime.utcnow`, read by the signal-recording and
report paths, not by `get_gold_price`). -/
structure World where
  responses : SourceResponses
  clockNow : ℕ

/-- `get_gold_price` as executed inside a cycle: it reads only the
source responses of the world. -/
def get_gold_price_run (w : World) : Option ℚ :=
  get_gold_price w.responses

/-- The indicator values extracted at the top of
`compute_indicator_confluence` (lines 212-216): last close, EMA20,
EMA50, RSI and ATR of the supplied dataframe, as plain numbers. -/
structure IndicatorInputs where
  close : ℚ
  ema20 : ℚ
  ema50 : ℚ
  rsi_val : ℚ
  atr_val : ℚ

/-- Outcome of evaluating the body of the `try` in
`compute_indicator_confluence` up to the scoring arithmetic: either some
statement raised (empty dataframe, missing column, non-numeric data —
caught by the `except` at line 239), or the five indicator values were
obtained. -/
inductive DfOutcome
  | raises
  | inputs (i : IndicatorInputs)

/-- Python truthiness of a number: zero is falsy. -/
def truthy (q : ℚ) : Bool := decide (q ≠ 0)

/-- Round half to even, the convention of Python `round`. -/
def round_half_even (q : ℚ) : ℤ :=
  let f := Int.floor q
  let frac := q - f
  if frac < 1 / 2 then f
  else if frac > 1 / 2 then f + 1
  else if f % 2 = 0 then f else f + 1

/-- Python `round(x, 2)` on an exact rational (the model ignores binary
float representation error). -/
def py_round2 (q : ℚ) : ℚ := (round_half_even (q * 100) : ℚ) / 100

/-- The details dict returned on the success path of
`compute_indicator_confluence` (line 238): the four indicator values
rounded to two decimals. -/
structure IndicatorDetails where
  ema20 : ℚ
  ema50 : ℚ
  rsi : ℚ
  atr : ℚ
  deriving DecidableEq, Repr

/-- `compute_indicator_confluence` (lines 206-241): base score 50;
`+20` if EMA20 > EMA50 else `-10`; `+20` if RSI < 30, `-15` if RSI > 70,
else `+0`; `-5` if ATR is truthy and ATR > 5; then clipped with
`max(0, min(100, score))`.  The score stays an integer, so the final
`round(score, 2)` is the identity.  On any exception the `except` arm
returns `50, empty dict` (modelled as `(50, none)`). -/
def compute_indicator_confluence (df_latest : DfOutcome) :
    ℤ × Option IndicatorDetails :=
  match df_latest with
  | .raises => (50, none)
  | .inputs i =>
    let score : ℤ := 50
    let score := if i.ema20 > i.ema50 then score + 20 else score - 10
    let score :=
      if i.rsi_val < 30 then score + 20
      else if i.rsi_val > 70 then score - 15
      else score + 0
    let score :=
      if truthy i.atr_val && decide (i.atr_val > 5) then score - 5 else score
    let score := max 0 (min 100 score)
    (score,
      some ⟨py_round2 i.ema20, py_round2 i.ema50,
            py_round2 i.rsi_val, py_round2 i.atr_val⟩)

/-- The names the `discord_webhook` import at line 20 binds. -/
def discord_webhook_imported_names : List String :=
  ["DiscordWebhook", "DiscordEmbed"]

/-- Every module-level name bound before line 62 executes: the imports
of lines 2-20 and the configuration assignments of lines 25-59. -/
def names_bound_before_line62 : List String :=
  ["sys", "types", "time", "requests", "json", "os", "datetime",
   "timedelta", "pytz", "math", "csv", "pd", "np"] ++
  discord_webhook_imported_names ++
  ["DISCORD_WEBHOOK", "HF_TOKEN", "TIMEZONE", "DAILY_HOUR",
   "CHECK_INTERVAL_SECONDS", "HISTORY_FILE", "MODEL_WEIGHT",
   "INDICATOR_WEIGHT", "PRICE_SOURCES", "GOLDAPI_KEY",
   "ALERT_THRESHOLD", "PING_THRESHOLD", "OUTCOME_HORIZON_MIN"]

/-- Result of running the module top level up to line 62. -/
inductive StartupResult
  | running
  | crashed (e : PyErr)
  deriving DecidableEq, Repr

/-- Line 62, `webhook = SyncWebhook.from_url(DISCORD_WEBHOOK)`, executes
at import time outside any try/except: evaluating the name `SyncWebhook`
raises `NameError` unless it is bound at module level. -/
def module_startup : StartupResult :=
  if names_bound_before_line62.contains "SyncWebhook" then .running
  else .crashed .nameError

/-- Counterexample to C4: Yahoo parses the invalid price -5 and every
other source fails, so zero valid quotes remain — every source has
failed to produce a valid quote — yet the pass returns the invalid
price instead of the no-valid-source failure, and the caller proceeds
with the cycle instead of skipping it. -/
theorem c4_counterexample :
    valid_quotes ⟨.ok (-5), .raised .timeout, .skipped, .raised .jsonError⟩ =
      [] ∧
    ¬ (0 : ℚ) < -5 ∧
    get_gold_price ⟨.ok (-5), .raised .timeout, .skipped,
        .raised .jsonError⟩ = some (-5) ∧
    create_signal_dispatch ⟨.ok (-5), .raised .timeout, .skipped,
        .raised .jsonError⟩ = .proceeded (-5) := by
  exact ⟨by decide, by norm_num, rfl, rfl⟩

/-- Amended C4: only when every price source fails to produce *any*
price (each block raises or falls through, parsing nothing) does the
pass return `None` (the no-valid-source failure), never a default or
synthetic price, and `create_signal_and_maybe_alert` reacts by skipping
the cycle without recording a signal or alerting; a source that parses
an invalid quote instead has that price returned (amended C3). -/
theorem c4_all_fail_returns_none (env : SourceResponses)
    (h : all_sources_fail env = true) :
    get_gold_price env = none ∧
    create_signal_dispatch env = .skippedNoPrice := by
  obtain ⟨y, m, g, a⟩ := env
  cases y <;> cases m <;> cases g <;> cases a <;>
    simp_all [all_sources_fail, fails_to_return, get_gold_price,
      create_signal_dispatch]

/-- Witness for C4 at a concrete all-failing response set. -/
theorem c4_all_fail_returns_none_witness :
    get_gold_price
        ⟨.error .timeout, .raised .networkError, .skipped,
          .raised .jsonError⟩ = none ∧
    create_signal_dispatch
        ⟨.error .timeout, .raised .networkError, .skipped,
          .raised .jsonError⟩ = .skippedNoPrice :=
  c4_all_fail_returns_none _ (by decide)

/-- Claim C5: whenever the primary source (Yahoo, first in
`PRICE_SOURCES`) yields a valid quote, the returned price is exactly the
primary value and it is the Yahoo block that returns, regardless of what
every other source does. -/
theorem c5_primary_wins (env : SourceResponses) (v : ℚ) (_hv : 0 < v)
    (h : env.yahoo = .ok v) :
    get_gold_price_traced env = some (SourceId.yahoo, v) ∧
    get_gold_price env = some v := by
  constructor
  · simp [get_gold_price_traced, h]
  · simp [get_gold_price, h]

/-- Witness for C5: Yahoo returns 2400 while the other sources would
return different prices. -/
theorem c5_primary_wins_witness :
    (0 : ℚ) < 2400 ∧
    get_gold_price_traced ⟨.ok 2400, .value 9, .value 1, .skipped⟩ =
      some (SourceId.yahoo, 2400) ∧
    get_gold_price ⟨.ok 2400, .value 9, .value 1, .skipped⟩ = some 2400 :=
  ⟨by norm_num,
    (c5_primary_wins ⟨.ok 2400, .value 9, .value 1, .skipped⟩ 2400
      (by norm_num) rfl).1,
    (c5_primary_wins ⟨.ok 2400, .value 9, .value 1, .skipped⟩ 2400
      (by norm_num) rfl).2⟩

/-- Claim C7: per-source failures are caught by each bare
`except Exception`; with the exception channel explicit, the function
always returns normally with the value of `get_gold_price`, never with
an escaping exception. -/
theorem c7_no_exception_escapes (env : SourceResponses) :
    get_gold_price_exc env = .ok (get_gold_price env) := by
  obtain ⟨y, m, g, a⟩ := env
  cases y <;> cases m <;> cases g <;> cases a <;> rfl

/-- Claim C8: one reconciliation pass is a pure function of the frozen
source responses — two worlds that agree on the responses (whatever the
wall clock says) produce the same output, so running twice on the same
frozen responses yields identical output. -/
theorem c8_pure_function_of_responses (w1 w2 : World)
    (h : w1.responses = w2.responses) :
    get_gold_price_run w1 = get_gold_price_run w2 := by
  simp [get_gold_price_run, h]

/-- Witness for C8: identical responses, different clock readings. -/
theorem c8_pure_function_of_responses_witness :
    get_gold_price_run ⟨⟨.ok 2400, .skipped, .skipped, .skipped⟩, 0⟩ =
      get_gold_price_run ⟨⟨.ok 2400, .skipped, .skipped, .skipped⟩, 12345⟩ :=
  c8_pure_function_of_responses _ _ rfl

/-- Claim C9 (code bug): line 62 runs `SyncWebhook.from_url(...)` at
module load time, but `SyncWebhook` is bound by no import of the module
(line 20 imports only `DiscordWebhook` and `DiscordEmbed`), so start-up
aborts with a `NameError` on every run. -/
theorem c9_startup_crashes :
    module_startup = .crashed .nameError ∧
    names_bound_before_line62.contains "SyncWebhook" = false := by
  exact ⟨rfl, rfl⟩

/-- Claim C10: the confluence score is always within `[0, 100]` (it is
clipped with `max(0, min(100, score))`), and whenever the try body
raises the function returns exactly `(50, empty details)`. -/
theorem c10_confluence_bounds (df : DfOutcome) :
    (0 ≤ (compute_indicator_confluence df).1 ∧
      (compute_indicator_confluence df).1 ≤ 100) ∧
    (df = .raises → compute_indicator_confluence df = (50, none)) := by
  cases df with
  | raises => exact ⟨⟨by decide, by decide⟩, fun _ => rfl⟩
  | inputs i =>
    refine ⟨⟨?_, ?_⟩, fun hc => DfOutcome.noConfusion hc⟩
    · simp only [compute_indicator_confluence]
      exact le_max_left _ _
    · simp only [compute_indicator_confluence]
      exact max_le (by norm_num) (min_le_left _ _)

/-- Witness for C10 at the raising input. -/
theorem c10_confluence_bounds_witness :
    (0 ≤ (compute_indicator_confluence .raises).1 ∧
      (compute_indicator_confluence .raises).1 ≤ 100) ∧
    compute_indicator_confluence .raises = (50, none) :=
  ⟨(c10_confluence_bounds .raises).1, (c10_confluence_bounds .raises).2 rfl⟩

/-- Counterexample to C1: when the first source (Yahoo) parses a price,
`get_gold_price` returns at once — the three other configured sources
are never contacted, so not every configured source is invoked and
their outcomes are not collected. -/
theorem c1_counterexample :
    get_gold_price_calls ⟨.ok 2400, .value 2300, .value 2500, .value 2600⟩ =
      [SourceId.yahoo] ∧
    SourceId.metalsLive ∉
      get_gold_price_calls ⟨.ok 2400, .value 2300, .value 2500, .value 2600⟩ ∧
    SourceId.goldpriceOrg ∉
      get_gold_price_calls ⟨.ok 2400, .value 2300, .value 2500, .value 2600⟩ ∧
    SourceId.goldapi ∉
      get_gold_price_calls ⟨.ok 2400, .value 2300, .value 2500, .value 2600⟩ := by
  refine ⟨rfl, ?_, ?_, ?_⟩ <;> decide

/-- Amended C1: the sources are invoked sequentially in configuration
order and invocation stops at the first block that returns; every
source after the returning one is skipped. -/
theorem c1_later_sources_not_invoked (env : SourceResponses) (s : SourceId)
    (v : ℚ) (h : get_gold_price_traced env = some (s, v)) (t : SourceId)
    (ht : source_index s < source_index t) :
    t ∉ get_gold_price_calls env := by
  obtain ⟨y, m, g, a⟩ := env
  cases s <;> cases t <;>
    first
      | exact absurd ht (by decide)
      | (cases y <;> cases m <;> cases g <;> cases a <;>
          simp_all [get_gold_price_traced, get_gold_price_calls])

/-- Witness for amended C1: Yahoo succeeds, so metals.live (a strictly
later source) is not contacted. -/
theorem c1_later_sources_not_invoked_witness :
    SourceId.metalsLive ∉
      get_gold_price_calls ⟨.ok 2400, .value 2300, .value 2500, .value 2600⟩ :=
  c1_later_sources_not_invoked
    ⟨.ok 2400, .value 2300, .value 2500, .value 2600⟩ SourceId.yahoo 2400 rfl
    SourceId.metalsLive (by decide)

/-- Counterexample to C2: primary fails, valid quotes are
`[2450, 2400]` (even count, no valid primary); the lower-middle median
is 2400, but the code returns 2450 — the first source in order that
parsed a price. -/
theorem c2_counterexample :
    valid_quotes ⟨.error .timeout, .value 2450, .value 2400, .skipped⟩ =
      [2450, 2400] ∧
    spec_median_low
        (valid_quotes ⟨.error .timeout, .value 2450, .value 2400, .skipped⟩) =
      some 2400 ∧
    get_gold_price ⟨.error .timeout, .value 2450, .value 2400, .skipped⟩ =
      some 2450 ∧
    (2450 : ℚ) ≠ 2400 := by
  refine ⟨by decide, by decide, rfl, by norm_num⟩

/-- Amended C2: when the primary source fails, the chosen value is not
a median at all — it is the value of the earliest source in the
configured order whose block parses a price. -/
theorem c2_first_success_not_median (env : SourceResponses) (e : PyErr)
    (h : env.yahoo = .error e) :
    get_gold_price env =
      first_value [env.metalsLive, env.goldpriceOrg, env.goldapi] := by
  obtain ⟨y, m, g, a⟩ := env
  cases y with
  | ok p => exact absurd h (by simp)
  | error e2 => cases m <;> cases g <;> cases a <;> rfl

/-- Witness for amended C2: the primary fails and two later sources
return 2410 and 2412; the first of them is chosen. -/
theorem c2_first_success_not_median_witness :
    get_gold_price ⟨.error .timeout, .raised .jsonError, .value 2410,
        .value 2412⟩ =
      first_value [.raised .jsonError, .value 2410, .value 2412] :=
  c2_first_success_not_median _ .timeout rfl

/-- Counterexample to C3: Yahoo parses the non-positive value -5 and
`get_gold_price` returns it as the price — no positivity or finiteness
filter exists before selection. -/
theorem c3_counterexample :
    get_gold_price ⟨.ok (-5), .value 2400, .skipped, .skipped⟩ =
      some (-5) ∧
    ¬ (0 : ℚ) < -5 := by
  exact ⟨rfl, by norm_num⟩

/-- Amended C3: quotes are not validated — a non-positive parsed value
from the first succeeding source becomes the returned price, whether it
comes from the primary or, when the primary raises, from metals.live. -/
theorem c3_no_validity_filter (env : SourceResponses) (v : ℚ)
    (_hv : v ≤ 0) :
    (env.yahoo = .ok v → get_gold_price env = some v) ∧
    (∀ e, env.yahoo = .error e → env.metalsLive = .value v →
      get_gold_price env = some v) := by
  constructor
  · intro h
    simp [get_gold_price, h]
  · intro e h1 h2
    simp [get_gold_price, h1, h2]

/-- Witness for amended C3 with the non-positive quote -5 from Yahoo. -/
theorem c3_no_validity_filter_witness :
    ((-5 : ℚ) ≤ 0) ∧
    get_gold_price ⟨.ok (-5), .skipped, .skipped, .skipped⟩ = some (-5) :=
  ⟨by norm_num,
    (c3_no_validity_filter ⟨.ok (-5), .skipped, .skipped, .skipped⟩ (-5)
      (by norm_num)).1 rfl⟩

/-- Counterexample to C6: with Yahoo and metals.live failing and
goldprice.org at 2400, the price is 2400; adding one invalid quote
(metals.live now parses -5) leaves the valid-quote set unchanged at
`[2400]` yet changes the returned price to -5. -/
theorem c6_counterexample :
    valid_quotes ⟨.error .timeout, .raised .networkError, .value 2400,
        .skipped⟩ = [2400] ∧
    valid_quotes ⟨.error .timeout, .value (-5), .value 2400, .skipped⟩ =
      [2400] ∧
    get_gold_price ⟨.error .timeout, .raised .networkError, .value 2400,
        .skipped⟩ = some 2400 ∧
    get_gold_price ⟨.error .timeout, .value (-5), .value 2400, .skipped⟩ =
      some (-5) ∧
    ((-5 : ℚ) ≤ 0) ∧ ((2400 : ℚ) ≠ -5) := by
  refine ⟨by decide, by decide, rfl, rfl, by norm_num, by norm_num⟩

/-- Amended C6: the discard law only holds downstream of the chosen
source — if the pass returns from source `s`, any change confined to
sources strictly after `s` (such as adding an invalid quote there)
leaves the outcome unchanged; an invalid quote added before `s` instead
becomes the price itself. -/
theorem c6_later_sources_frame (e1 e2 : SourceResponses) (s : SourceId)
    (v : ℚ) (h : get_gold_price_traced e1 = some (s, v))
    (ha : agree_upto s e1 e2) :
    get_gold_price_traced e2 = some (s, v) := by
  obtain ⟨y1, m1, g1, a1⟩ := e1
  obtain ⟨y2, m2, g2, a2⟩ := e2
  obtain ⟨hy, hm, hg, hA⟩ := ha
  cases hy
  cases y1 with
  | ok p =>
    simp only [get_gold_price_traced] at h ⊢
    exact h
  | error e =>
    cases m1 with
    | value w =>
      simp only [get_gold_price_traced, Option.some.injEq,
        Prod.mk.injEq] at h
      obtain ⟨hs, hw⟩ := h
      cases hs
      cases hw
      cases hm (by decide)
      rfl
    | raised e2' =>
      cases g1 with
      | value w =>
        simp only [get_gold_price_traced, Option.some.injEq,
          Prod.mk.injEq] at h
        obtain ⟨hs, hw⟩ := h
        cases hs
        cases hw
        cases hm (by decide)
        cases hg (by decide)
        rfl
      | raised e3 =>
        cases a1 with
        | value w =>
          simp only [get_gold_price_traced, Option.some.injEq,
            Prod.mk.injEq] at h
          obtain ⟨hs, hw⟩ := h
          cases hs
          cases hw
          cases hm (by decide)
          cases hg (by decide)
          cases hA (by decide)
          rfl
        | raised e4 => simp [get_gold_price_traced] at h
        | skipped => simp [get_gold_price_traced] at h
      | skipped =>
        cases a1 with
        | value w =>
          simp only [get_gold_price_traced, Option.some.injEq,
            Prod.mk.injEq] at h
          obtain ⟨hs, hw⟩ := h
          cases hs
          cases hw
          cases hm (by decide)
          cases hg (by decide)
          cases hA (by decide)
          rfl
        | raised e4 => simp [get_gold_price_traced] at h
        | skipped => simp [get_gold_price_traced] at h
    | skipped =>
      cases g1 with
      | value w =>
        simp only [get_gold_price_traced, Option.some.injEq,
          Prod.mk.injEq] at h
        obtain ⟨hs, hw⟩ := h
        cases hs
        cases hw
        cases hm (by decide)
        cases hg (by decide)
        rfl
      | raised e3 =>
        cases a1 with
        | value w =>
          simp only [get_gold_price_traced, Option.some.injEq,
            Prod.mk.injEq] at h
          obtain ⟨hs, hw⟩ := h
          cases hs
          cases hw
          cases hm (by decide)
          cases hg (by decide)
          cases hA (by decide)
          rfl
        | raised e4 => simp [get_gold_price_traced] at h
        | skipped => simp [get_gold_price_traced] at h
      | skipped =>
        cases a1 with
        | value w =>
          simp only [get_gold_price_traced, Option.some.injEq,
            Prod.mk.injEq] at h
          obtain ⟨hs, hw⟩ := h
          cases hs
          cases hw
          cases hm (by decide)
          cases hg (by decide)
          cases hA (by decide)
          rfl
        | raised e4 => simp [get_gold_price_traced] at h
        | skipped => simp [get_gold_price_traced] at h

/-- Witness for amended C6: the pass returns from goldprice.org; adding
an invalid quote at goldapi (a later source) changes nothing. -/
theorem c6_later_sources_frame_witness :
    get_gold_price_traced ⟨.error .timeout, .skipped, .value 2400,
        .value (-5)⟩ = some (SourceId.goldpriceOrg, 2400) := by
  refine c6_later_sources_frame
    ⟨.error .timeout, .skipped, .value 2400, .skipped⟩ _ _ _ rfl ?_
  exact ⟨rfl, fun _ => rfl, fun _ => rfl, fun h3 => absurd h3 (by decide)⟩
